import Mathlib

/-!
Verification of the `ytrs` terminal media client.

Definitions in this file are shallow embeddings of the Rust sources
(`src/app.rs`, `src/main.rs`, `src/utility.rs`).  Machine integers (`u8`,
`u32`) are represented as `Nat` with explicit `% 2 ^ w` where a cast in the
source truncates.  The mpv IPC core (`crate::mpv`, the `MpvIpc` facade with
`spawn`, `send_command`, `observe_prop`, `set_prop`, `running`, `quit`) is
declared and used by `src/app.rs` but its module is not among the provided
source files; where a property is decided by that module, the corresponding
definitions are modelled from the specification and their doc comments say so.
-/

namespace Ytrs

/-! ## `src/utility.rs`: `format_time` -/

/-- Rust `format!("{n:02}")`: decimal rendering of `n`, zero-padded on the
left to a minimum width of two characters. -/
def fmt02 (n : Nat) : String :=
  if n < 10 then "0" ++ toString n else toString n

/-- Embedding of `format_time` (src/utility.rs lines 1-16): hours and minutes
fields are each emitted (with a trailing colon) only when nonzero, seconds are
always emitted, all zero-padded to two digits, inside square brackets. -/
def format_time (d : Nat) : String :=
  let hours := d / 3600
  let minutes := (d % 3600) / 60
  let secs := d % 60
  let hoursStr := if hours > 0 then fmt02 hours ++ ":" else ""
  let minutesStr := if minutes > 0 then fmt02 minutes ++ ":" else ""
  "[" ++ hoursStr ++ minutesStr ++ fmt02 secs ++ "]"

/-! ## `src/app.rs` lines 1588-1594: MIDI/mpv volume conversions -/

/-- Embedding of `u32_to_midi` (src/app.rs lines 1588-1590):
`((val * 127) / 130) as u8`.  The `as u8` cast is the final `% 2 ^ 8`. -/
def u32_to_midi (val : Nat) : Nat :=
  ((val * 127) / 130) % 2 ^ 8

/-- Embedding of `u8_to_mpv_vol` (src/app.rs lines 1592-1594):
`((val as u32 * 130) / 127).clamp(0, 130)`.  `clamp(0, 130)` on an unsigned
value is `min (max _ 0) 130`. -/
def u8_to_mpv_vol (val : Nat) : Nat :=
  min (max ((val * 130) / 127) 0) 130

/-! ## `src/app.rs`: `YoutubeResponse` and its duration accessor -/

/-- The fields of rustypipe's `VideoItem` that `YoutubeResponse` reads:
`duration : Option<u32>` plus name/id strings. -/
structure VideoItem where
  id : String
  name : String
  duration : Option Nat
  deriving DecidableEq

/-- The fields of rustypipe's `TrackItem` that `YoutubeResponse` reads. -/
structure TrackItem where
  id : String
  name : String
  duration : Option Nat
  deriving DecidableEq

/-- Embedding of `YoutubeResponse` (src/app.rs lines 139-143). -/
inductive YoutubeResponse where
  | video (v : VideoItem)
  | track (t : TrackItem)
  deriving DecidableEq

/-- The `duration` field of the wrapped item, before `unwrap_or_default`. -/
def YoutubeResponse.durationField : YoutubeResponse → Option Nat
  | .video v => v.duration
  | .track t => t.duration

/-- Embedding of `YoutubeResponse::get_duration` (src/app.rs lines 304-310):
`duration.unwrap_or_default()` on the wrapped video or track. -/
def YoutubeResponse.get_duration : YoutubeResponse → Nat
  | .video v => v.duration.getD 0
  | .track t => t.duration.getD 0

/-- The denominator of the progress-gauge ratio computed in
`render_yt_player` (src/app.rs line 964):
`.ratio(playback_time / res.get_duration() as f64)`. -/
def renderYtPlayerGaugeDen (res : YoutubeResponse) : Nat :=
  res.get_duration

/-! ## `src/main.rs` lines 95-123 and `src/app.rs` lines 1373-1381:
the mpv availability probe and its process-wide cache -/

/-- Outcome of running the external probe `mpv --version` once: either the
binary could not be located or launched (`Command::output` returned `Err`),
or it ran and exited with the given success flag. -/
inductive ProbeOutcome where
  | launchFailure
  | exited (success : Bool)
  deriving DecidableEq

/-- The two `static mut` flags of src/main.rs lines 95-96
(`MPV_CHECKED`, `MPV_INSTALLED`). -/
structure MpvCache where
  checked : Bool
  installed : Bool
  deriving DecidableEq

/-- Initial values of the flags (both `false`). -/
def MpvCache.init : MpvCache := ⟨false, false⟩

/-- The error enum of src/app.rs lines 145-151 (`YtrsError`); only the
variant used by `check_mpv` is needed here. -/
inductive YtrsError where
  | mpvNotFound
  deriving DecidableEq

/-- Embedding of `YoutubeRs::check_mpv` (src/app.rs lines 1373-1381): a
launch error becomes `Err(MpvNotFound)`, otherwise `Ok(status.success())`. -/
def check_mpv : ProbeOutcome → Except YtrsError Bool
  | .launchFailure => .error .mpvNotFound
  | .exited ok => .ok ok

/-- Embedding of one completed call of `check_mpv_installed` (src/main.rs
lines 98-123): if `MPV_CHECKED` is already set the cached `MPV_INSTALLED` is
returned without running the external command; otherwise the probe runs once,
both flags are set, and its result is returned.  The components are the
returned Boolean, the updated flags, and whether the external command ran.
The `probe` argument is the outcome the external command would produce on
this call; it is consulted only when the probe actually runs. -/
def check_mpv_installed (probe : ProbeOutcome) (s : MpvCache) :
    Bool × MpvCache × Bool :=
  if s.checked then (s.installed, s, false)
  else
    match probe with
    | .exited ok => (ok, ⟨true, ok⟩, true)
    | .launchFailure => (false, ⟨true, false⟩, true)

/-- A sequence of `check_mpv_installed` calls threaded through the flags;
collects each call's (result, ran-the-probe) pair and the final flags. -/
def runChecks : List ProbeOutcome → MpvCache → List (Bool × Bool) × MpvCache
  | [], s => ([], s)
  | p :: ps, s =>
      let c := check_mpv_installed p s
      let rest := runChecks ps c.2.1
      ((c.1, c.2.2) :: rest.1, rest.2)

/-- What a session-starting operation did: whether it returned an error to
the caller, whether it spawned the mpv process, and how many times it ran
the availability probe. -/
structure StartTrace where
  errored : Bool
  spawned : Bool
  probesRun : Nat
  deriving DecidableEq

/-- Embedding of the mpv gate of `YTRSAction::watch` (src/main.rs lines
208-217): if `check_mpv_installed()` is false the operation bails with an
error before `MpvPlayer::new` (which spawns mpv) is reached; otherwise mpv
is spawned.  Returns the trace and the updated cache flags. -/
def watchMpvGate (probe : ProbeOutcome) (s : MpvCache) : StartTrace × MpvCache :=
  let c := check_mpv_installed probe s
  let probes := if c.2.2 then 1 else 0
  if c.1 then ({ errored := false, spawned := true, probesRun := probes }, c.2.1)
  else ({ errored := true, spawned := false, probesRun := probes }, c.2.1)

/-- Embedding of the mpv gate of `YTRSAction::listen` (src/main.rs lines
443-451), textually identical to the gate in `watch`. -/
def listenMpvGate (probe : ProbeOutcome) (s : MpvCache) : StartTrace × MpvCache :=
  let c := check_mpv_installed probe s
  let probes := if c.2.2 then 1 else 0
  if c.1 then ({ errored := false, spawned := true, probesRun := probes }, c.2.1)
  else ({ errored := true, spawned := false, probesRun := probes }, c.2.1)

/-- Embedding of the mpv gate of `YoutubeRs::process` in the
`AppAction::Player` arm (src/app.rs lines 363-366): when `self.mpv_installed`
is false it runs `check_mpv()?`, so a launch failure propagates as an error
before any query or spawn; on `Ok(b)` the flag is updated and the arm
continues to spawn mpv (the source does not bail when `b` is false). -/
def processPlayerGate (mpvInstalled : Bool) (probe : ProbeOutcome) : StartTrace :=
  if mpvInstalled then { errored := false, spawned := true, probesRun := 0 }
  else
    match check_mpv probe with
    | .error _ => { errored := true, spawned := false, probesRun := 1 }
    | .ok _ => { errored := false, spawned := true, probesRun := 1 }

/-! ## `src/app.rs` lines 620-695: one iteration of the player TUI loop -/

/-- The player-facing actions one iteration of the TUI loop performs.
`midiVolume`/`midiPause` are mpv commands triggered by pending hardware
(MIDI) messages; `keyboardEvent` stands for reading and handling a keyboard
event in the same iteration. -/
inductive TickAction where
  | midiVolume (v : Nat)
  | midiPause
  | keyboardEvent (k : Nat)
  deriving DecidableEq

def TickAction.isMidi : TickAction → Bool
  | .midiVolume _ => true
  | .midiPause => true
  | .keyboardEvent _ => false

def TickAction.isKeyboard : TickAction → Bool
  | .keyboardEvent _ => true
  | .midiVolume _ => false
  | .midiPause => false

/-- The MIDI segment of a tick: the drained hardware volume message
(src/app.rs lines 622-627) followed by the hardware pause message
(lines 628-631). -/
def tickMidiPart (midiVol : Option Nat) (midiPause : Bool) : List TickAction :=
  (match midiVol with
    | some v => [TickAction.midiVolume v]
    | none => []) ++
  (if midiPause then [TickAction.midiPause] else [])

/-- The keyboard segment of a tick: when mpv is still running (the loop did
not break at lines 632-634) and `poll` reports a pending event, the event is
read and handled (src/app.rs lines 663-695). -/
def tickKeyPart (running : Bool) (key : Option Nat) : List TickAction :=
  if running then
    (match key with
      | some k => [TickAction.keyboardEvent k]
      | none => [])
  else []

/-- One iteration of the player TUI main loop (src/app.rs lines 621-695) as
the ordered list of player-facing actions it performs: the MIDI segment comes
first, then the keyboard segment. -/
def playerTick (midiVol : Option Nat) (midiPause : Bool) (running : Bool)
    (key : Option Nat) : List TickAction :=
  tickMidiPart midiVol midiPause ++ tickKeyPart running key

/-! ## The mpv IPC core (`crate::mpv`), modelled from the spec

`src/app.rs` line 2 imports `crate::mpv::{MpvIpc, MpvSpawnOptions}`, but the
`mpv` module itself is not among the provided source files.  The definitions
below are therefore modelled from the specification (sections 2-7): the
Dispatch Table, the Facade connection-state machine, session-resource
scoping, and the Property Observer Registry. -/

/-- Modelled from the spec: a decoded inbound Response line,
`{request_id, status, payload}` (spec section 3); status/payload are
abstracted into one payload number. -/
structure Response where
  request_id : Nat
  payload : Nat
  deriving DecidableEq

/-- Modelled from the spec: the Dispatch Table, "a concurrent registry from
request id to a one-shot reply slot" (spec section 2).  An entry pairs a
request id with its slot, `none` until the matching Response completes it. -/
structure DispatchTable where
  slots : List (Nat × Option Response)
  deriving DecidableEq

def DispatchTable.empty : DispatchTable := ⟨[]⟩

/-- Modelled from the spec: `register(request_id)` adds a fresh unresolved
slot, taking effect before the command is written (spec section 4.4). -/
def DispatchTable.register (id : Nat) (t : DispatchTable) : DispatchTable :=
  ⟨(id, none) :: t.slots⟩

/-- Modelled from the spec: `complete(request_id, response)`, called by the
Reader Task, resolves the slot whose key equals the Response's `request_id`
and is still unresolved; completing an unknown id is a warning, not fatal
(spec section 4.4). -/
def DispatchTable.complete (r : Response) (t : DispatchTable) : DispatchTable :=
  ⟨t.slots.map fun e =>
    if e.1 = r.request_id ∧ e.2 = none then (e.1, some r) else e⟩

/-- Modelled from the spec: a caller's timeout deregisters its slot so late
responses for that id are discarded (spec section 4.4). -/
def DispatchTable.deregister (id : Nat) (t : DispatchTable) : DispatchTable :=
  ⟨t.slots.filter fun e => e.1 != id⟩

/-- One interleaved step on the shared Dispatch Table: a `send_command`
caller registers or (on timeout) deregisters, or the Reader Task completes
an arriving Response.  A list of these steps is one interleaving of
concurrently issued commands. -/
inductive DispatchOp where
  | register (id : Nat)
  | deregister (id : Nat)
  | complete (r : Response)
  deriving DecidableEq

def DispatchTable.step (t : DispatchTable) : DispatchOp → DispatchTable
  | .register id => t.register id
  | .deregister id => t.deregister id
  | .complete r => t.complete r

def runDispatch : List DispatchOp → DispatchTable → DispatchTable
  | [], t => t
  | op :: ops, t => runDispatch ops (t.step op)

/-- Modelled from the spec: the Facade connection-lifecycle states
(spec section 4.6); `closed` is terminal. -/
inductive ConnState where
  | connecting
  | opened
  | closing
  | closed
  deriving DecidableEq

/-- Modelled from the spec: the `MpvIpc` facade state visible to callers. -/
structure MpvIpc where
  conn : ConnState
  deriving DecidableEq

/-- Modelled from the spec: `running()` — non-blocking liveness probe; the
player process is alive only while the connection is open (spec sections 4.1
and 4.6: `quit()` terminates the process, `Closed` is terminal). -/
def MpvIpc.running (m : MpvIpc) : Bool := m.conn == ConnState.opened

/-- Modelled from the spec: `quit()` — best-effort graceful shutdown, safe
from any state; when it returns, the quit command has been sent, the Reader
Task stopped, and the process terminated: the connection is `closed`
(spec sections 4.6 and 6). -/
def MpvIpc.quit (_m : MpvIpc) : MpvIpc := ⟨ConnState.closed⟩

/-- Modelled from the spec error taxonomy (section 7). -/
inductive IpcError where
  | disconnected
  | rejected (name : String)
  deriving DecidableEq

/-- Modelled from the spec: `send_command` succeeds only in the open state;
in every other state it returns `Disconnected` and leaves the connection
unchanged (spec sections 4.6 and 7). -/
def MpvIpc.send_command (m : MpvIpc) (cmd : Nat) : Except IpcError Nat × MpvIpc :=
  match m.conn with
  | ConnState.opened => (Except.ok cmd, m)
  | _ => (Except.error IpcError.disconnected, m)

/-- The operations a caller (or the Reader Task) can perform on the facade
after some point in time. -/
inductive FacadeOp where
  | send (cmd : Nat)
  | setProperty
  | observeProperty
  | queryRunning
  | quitCall
  | readerFailure
  deriving DecidableEq

/-- Modelled from the spec: the connection-state effect of each operation.
`readerFailure` is an I/O failure detected by the Reader Task
(`Open → Closing → Closed`); reads (`queryRunning`, property reads) do not
change state; no operation leaves `closed` (spec section 4.6). -/
def MpvIpc.step (m : MpvIpc) : FacadeOp → MpvIpc
  | FacadeOp.quitCall => m.quit
  | FacadeOp.readerFailure => ⟨ConnState.closed⟩
  | FacadeOp.send c => (m.send_command c).2
  | _ => m

def MpvIpc.runOps (m : MpvIpc) : List FacadeOp → MpvIpc
  | [] => m
  | op :: ops => (m.step op).runOps ops

/-- The scoped resources of one player session: the spawned mpv process and
its IPC endpoint (local socket / named pipe). -/
structure SessionResources where
  processAlive : Bool
  endpointOpen : Bool
  deriving DecidableEq

/-- Resource state right after `MpvIpc::spawn` succeeds in
`YoutubeRs::player` (src/app.rs line 558). -/
def spawnedResources : SessionResources := ⟨true, true⟩

/-- Modelled from the spec: `quit()` terminates the player process and the
teardown releases the IPC endpoint (spec sections 4.6, 5 and 6). -/
def mpvQuitRelease (_r : SessionResources) : SessionResources := ⟨false, false⟩

/-- Modelled from the spec: dropping the `MpvIpc` facade on any exit path
releases the player process and its IPC endpoint — "scoped acquisition with
guaranteed release", holding even when the caller's control flow aborts early
(spec section 5).  In `YoutubeRs::player` the facade is a local variable, so
it is dropped on normal return and while unwinding a panic alike. -/
def mpvDropRelease (_r : SessionResources) : SessionResources := ⟨false, false⟩

/-- The ways control can leave the TUI main loop of `YoutubeRs::player`
(src/app.rs lines 621-696): the `running()` probe turns false (lines
632-634), the keyboard handler returns `ControlFlow::Break` on `q` (lines
680-694), or the loop body panics (one of its `unwrap`/`expect` calls). -/
inductive PlayerExit where
  | mpvStopped
  | quitKey
  | panicInLoop
  deriving DecidableEq

/-- Resource state at the moment control leaves `YoutubeRs::player`
(src/app.rs lines 621-699): both `break` paths fall through to `mpv.quit()`
(line 697) and then drop the local facade when the function returns; a panic
unwinds out of the function and drops the local facade on the way. -/
def playerExitResources : PlayerExit → SessionResources
  | PlayerExit.mpvStopped => mpvDropRelease (mpvQuitRelease spawnedResources)
  | PlayerExit.quitKey => mpvDropRelease (mpvQuitRelease spawnedResources)
  | PlayerExit.panicInLoop => mpvDropRelease spawnedResources

/-- Modelled from the spec: an observed property's shared cell — the last
decoded value and a version counter incremented on every accepted Event,
even if the value is unchanged (spec section 3, `ObservedProperty`). -/
structure ObservedCell (α : Type) where
  propertyName : String
  lastValue : α
  version : Nat

/-- Modelled from the spec: a caller-side handle returned by
`observe_property`; each handle tracks its own last-observed version
(spec section 4.5, `ObservedValue`). -/
structure ObservedValue (α : Type) where
  cell : ObservedCell α
  seenVersion : Nat

/-- Modelled from the spec: `observe_prop(name, default)`
(`observe_property(name, value_kind, default)`) registers a new observer
whose stored value starts at the caller-supplied default with version `0`,
and hands back a fresh handle that has seen version `0`
(spec sections 4.3 and 4.5). -/
def observe_prop (α : Type) (name : String) (dflt : α) : ObservedValue α :=
  { cell := { propertyName := name, lastValue := dflt, version := 0 }
    seenVersion := 0 }

/-- Modelled from the spec: `current()` — the latest decoded value, which is
the default while no Event has arrived (spec section 4.5). -/
def ObservedValue.current {α : Type} (h : ObservedValue α) : α :=
  h.cell.lastValue

/-- Modelled from the spec: `has_changed()` — whether the cell's version
advanced past this handle's last-observed version (spec section 4.5). -/
def ObservedValue.has_changed {α : Type} (h : ObservedValue α) : Bool :=
  h.cell.version != h.seenVersion

/-- Modelled from the spec: arrival of a property-change Event for this
observer id updates the stored value and increments the version
(spec sections 3 and 4.5). -/
def ObservedValue.applyEvent {α : Type} (h : ObservedValue α) (v : α) :
    ObservedValue α :=
  { h with cell := { h.cell with lastValue := v, version := h.cell.version + 1 } }

end Ytrs

namespace Ytrs

/-! ## Theorems -/

/-- C8: for every `u32` duration `d`, `format_time d` is `[`, then the
two-digit (zero-padded) hour count followed by `:` only when `d / 3600 > 0`,
then the two-digit minute count followed by `:` only when
`(d % 3600) / 60 > 0`, then the two-digit value of `d % 60`, then `]`;
in particular when the hour count is positive and the minute count is zero
the minutes field is omitted entirely. -/
theorem format_time_structure (d : Nat) (_hd : d < 2 ^ 32) :
    format_time d =
      "[" ++ (if d / 3600 > 0 then fmt02 (d / 3600) ++ ":" else "")
          ++ (if (d % 3600) / 60 > 0 then fmt02 ((d % 3600) / 60) ++ ":" else "")
          ++ fmt02 (d % 60) ++ "]" ∧
    (d / 3600 > 0 → (d % 3600) / 60 = 0 →
      format_time d = "[" ++ fmt02 (d / 3600) ++ ":" ++ fmt02 (d % 60) ++ "]") := by
  constructor
  · rfl
  · intro hh hm
    simp only [format_time, hh, hm, if_pos, Nat.lt_irrefl, gt_iff_lt, if_true, if_false]
    simp [String.append_assoc]

/-- Witness for C8 at `d = 360000` (100 hours, 0 minutes, 0 seconds). -/
theorem format_time_structure_witness :
    (360000 < 2 ^ 32 ∧ 360000 / 3600 > 0 ∧ (360000 % 3600) / 60 = 0) ∧
      format_time 360000 = "[" ++ fmt02 (360000 / 3600) ++ ":" ++ fmt02 (360000 % 60) ++ "]" :=
  ⟨by decide, (format_time_structure 360000 (by norm_num)).2 (by decide) (by decide)⟩

set_option maxRecDepth 8192 in
/-- C9: `u8_to_mpv_vol` maps every `u8` into `0..=130`; `u32_to_midi` maps
every `x ≤ 130` to at most `127`; and for `v ≤ 127` the round trip
`u32_to_midi (u8_to_mpv_vol v)` equals `v` or `v - 1` (never exceeds `v`,
loses at most `1`). -/
theorem volume_conversion_bounds :
    (∀ v, v < 2 ^ 8 → u8_to_mpv_vol v ≤ 130) ∧
    (∀ x, x ≤ 130 → u32_to_midi x ≤ 127) ∧
    (∀ v, v ≤ 127 →
      u32_to_midi (u8_to_mpv_vol v) ≤ v ∧
      (u32_to_midi (u8_to_mpv_vol v) = v ∨ u32_to_midi (u8_to_mpv_vol v) + 1 = v)) := by
  refine ⟨?_, ?_, ?_⟩
  · decide
  · intro x hx
    interval_cases x <;> decide
  · intro v hv
    interval_cases v <;> exact ⟨by decide, by decide⟩

/-- Witness for C9 at `v = 255`, `x = 130`, round trip at `v = 1`
(where the loss of `1` actually occurs). -/
theorem volume_conversion_bounds_witness :
    (u8_to_mpv_vol 255 ≤ 130 ∧ u32_to_midi 130 ≤ 127 ∧
      u32_to_midi (u8_to_mpv_vol 1) ≤ 1 ∧ u32_to_midi (u8_to_mpv_vol 1) + 1 = 1) :=
  ⟨volume_conversion_bounds.1 255 (by decide),
   volume_conversion_bounds.2.1 130 (by decide),
   (volume_conversion_bounds.2.2 1 (by decide)).1,
   by decide⟩

/-- Helper: once the `MPV_CHECKED` flag is set, every further
`check_mpv_installed` call returns the cached Boolean, runs no probe, and
leaves the flags untouched. -/
theorem runChecks_of_checked (ps : List ProbeOutcome) (s : MpvCache)
    (hs : s.checked = true) :
    runChecks ps s = (List.replicate ps.length (s.installed, false), s) := by
  induction ps with
  | nil => simp [runChecks]
  | cons p ps ih => simp [runChecks, check_mpv_installed, hs, ih, List.replicate]

/-- C6: the external probe runs at most once per process: the first
`check_mpv_installed` call (from the initial flag state) runs it, caches the
result in the flags, and every later call — whatever the external command
would now report — returns that cached Boolean without running the command,
with the flags never changing again. -/
theorem check_mpv_installed_caches (p : ProbeOutcome) (ps : List ProbeOutcome)
    (r : Bool) (s : MpvCache) (ran : Bool)
    (h : check_mpv_installed p MpvCache.init = (r, s, ran)) :
    ran = true ∧ s.checked = true ∧ s.installed = r ∧
    runChecks ps s = (List.replicate ps.length (r, false), s) := by
  have hres : s.checked = true ∧ s.installed = r ∧ ran = true := by
    cases p with
    | launchFailure =>
      simp [check_mpv_installed, MpvCache.init] at h
      obtain ⟨hr, hs, hran⟩ := h
      subst hr hran
      simp [← hs]
    | exited ok =>
      simp [check_mpv_installed, MpvCache.init] at h
      obtain ⟨hr, hs, hran⟩ := h
      subst hr hran
      simp [← hs]
  refine ⟨hres.2.2, hres.1, hres.2.1, ?_⟩
  rw [runChecks_of_checked ps s hres.1, hres.2.1]

/-- Witness for C6: first call with a launch failure, then one further call
while mpv would now be available; the cached `false` is still returned and
the probe is not re-run. -/
theorem check_mpv_installed_caches_witness :
    check_mpv_installed ProbeOutcome.launchFailure MpvCache.init =
      (false, ⟨true, false⟩, true) ∧
    (true = true ∧ (⟨true, false⟩ : MpvCache).checked = true ∧
      (⟨true, false⟩ : MpvCache).installed = false ∧
      runChecks [ProbeOutcome.exited true] ⟨true, false⟩ =
        (List.replicate 1 (false, false), ⟨true, false⟩)) :=
  ⟨by decide,
   check_mpv_installed_caches ProbeOutcome.launchFailure [ProbeOutcome.exited true]
     false ⟨true, false⟩ true (by decide)⟩

/-- C5: when the mpv binary cannot be located or launched (the probe launch
fails) and the cache does not already claim mpv is installed, each
session-starting operation — `watch`, `listen`, and `process` with the
`Player` action — returns an error immediately, never spawns the player, and
runs the probe exactly once (no retry) within that operation. -/
theorem spawn_failure_surfaced (s : MpvCache) (hs : s.checked = false) :
    (watchMpvGate ProbeOutcome.launchFailure s).1 =
      { errored := true, spawned := false, probesRun := 1 } ∧
    (listenMpvGate ProbeOutcome.launchFailure s).1 =
      { errored := true, spawned := false, probesRun := 1 } ∧
    processPlayerGate false ProbeOutcome.launchFailure =
      { errored := true, spawned := false, probesRun := 1 } := by
  refine ⟨?_, ?_, ?_⟩ <;>
    simp [watchMpvGate, listenMpvGate, processPlayerGate, check_mpv_installed,
      check_mpv, hs]

/-- Witness for C5 from the initial (unprimed) cache. -/
theorem spawn_failure_surfaced_witness :
    MpvCache.init.checked = false ∧
    (watchMpvGate ProbeOutcome.launchFailure MpvCache.init).1 =
      { errored := true, spawned := false, probesRun := 1 } :=
  ⟨rfl, (spawn_failure_surfaced MpvCache.init rfl).1⟩

/-- Helper: nothing in the MIDI segment of a tick is a keyboard action. -/
theorem tickMidiPart_no_keyboard (midiVol : Option Nat) (midiPause : Bool) :
    ∀ a ∈ tickMidiPart midiVol midiPause, a.isKeyboard = false := by
  intro a ha
  cases midiVol <;> cases midiPause <;>
    simp [tickMidiPart] at ha <;>
    rcases ha with rfl | rfl <;>
    rfl

/-- Helper: nothing in the keyboard segment of a tick is a MIDI action. -/
theorem tickKeyPart_no_midi (running : Bool) (key : Option Nat) :
    ∀ a ∈ tickKeyPart running key, a.isMidi = false := by
  intro a ha
  cases running <;> cases key <;> simp [tickKeyPart] at ha
  subst ha
  rfl

/-- C7: in every iteration of the player TUI loop, every pending hardware
(MIDI) control action is applied to the player at a strictly earlier position
than any keyboard event handled in that same iteration. -/
theorem midi_before_keyboard (midiVol : Option Nat) (midiPause : Bool)
    (running : Bool) (key : Option Nat) (i j : Nat)
    (hi : i < (playerTick midiVol midiPause running key).length)
    (hj : j < (playerTick midiVol midiPause running key).length)
    (hmi : (playerTick midiVol midiPause running key)[i].isMidi = true)
    (hkj : (playerTick midiVol midiPause running key)[j].isKeyboard = true) :
    i < j := by
  have hiA : i < (tickMidiPart midiVol midiPause).length := by
    by_contra hge
    push_neg at hge
    simp only [playerTick] at hmi
    rw [List.getElem_append_right hge] at hmi
    have hmem := List.getElem_mem (l := tickKeyPart running key)
      (n := i - (tickMidiPart midiVol midiPause).length)
      (by
        have := hi
        simp only [playerTick, List.length_append] at this
        omega)
    rw [tickKeyPart_no_midi running key _ hmem] at hmi
    exact Bool.false_ne_true hmi
  have hjB : (tickMidiPart midiVol midiPause).length ≤ j := by
    by_contra hlt
    push_neg at hlt
    simp only [playerTick] at hkj
    rw [List.getElem_append_left hlt] at hkj
    have hmem := List.getElem_mem (l := tickMidiPart midiVol midiPause) (n := j) hlt
    rw [tickMidiPart_no_keyboard midiVol midiPause _ hmem] at hkj
    exact Bool.false_ne_true hkj
  omega

/-- Witness for C7: a pending MIDI volume message and a pending key in the
same tick; the MIDI action sits at index 0, the key at index 1. -/
theorem midi_before_keyboard_witness :
    ((0 : Nat) < (playerTick (some 100) false true (some 3)).length ∧
     (1 : Nat) < (playerTick (some 100) false true (some 3)).length ∧
     (playerTick (some 100) false true (some 3))[0].isMidi = true ∧
     (playerTick (some 100) false true (some 3))[1].isKeyboard = true) ∧
    (0 : Nat) < 1 :=
  ⟨⟨by decide, by decide, by decide, by decide⟩,
   midi_before_keyboard (some 100) false true (some 3) 0 1
     (by decide) (by decide) (by decide) (by decide)⟩

/-- C10: `get_duration` returns the wrapped item's duration when present and
`0` when absent (it is a total function, so the call never fails), and an
absent duration makes the `render_yt_player` gauge-ratio denominator zero. -/
theorem get_duration_total (res : YoutubeResponse) :
    (∀ d, res.durationField = some d → res.get_duration = d) ∧
    (res.durationField = none →
      res.get_duration = 0 ∧ renderYtPlayerGaugeDen res = 0) := by
  constructor
  · intro d hd
    cases res <;> simp_all [YoutubeResponse.durationField, YoutubeResponse.get_duration]
  · intro hnone
    cases res <;>
      simp_all [YoutubeResponse.durationField, YoutubeResponse.get_duration,
        renderYtPlayerGaugeDen]

/-- The correlation invariant of the Dispatch Table: every resolved slot
holds a Response whose `request_id` equals the slot's key. -/
def DispatchInv (t : DispatchTable) : Prop :=
  ∀ id r, (id, some r) ∈ t.slots → r.request_id = id

/-- Helper: every single Dispatch Table step preserves the correlation
invariant. -/
theorem dispatchInv_step (t : DispatchTable) (op : DispatchOp)
    (ht : DispatchInv t) : DispatchInv (t.step op) := by
  cases op with
  | register i =>
    intro id r hmem
    rcases List.mem_cons.mp hmem with heq | hmem2
    · simp at heq
    · exact ht id r hmem2
  | deregister i =>
    intro id r hmem
    exact ht id r (List.mem_of_mem_filter hmem)
  | complete resp =>
    intro id r hmem
    rcases List.mem_map.mp hmem with ⟨e, he, heq⟩
    by_cases hc : e.1 = resp.request_id ∧ e.2 = none
    · rw [if_pos hc] at heq
      have h1 : e.1 = id := congrArg Prod.fst heq
      have h2 : some resp = some r := congrArg Prod.snd heq
      obtain rfl := Option.some.inj h2
      rw [← h1]
      exact hc.1.symm
    · rw [if_neg hc] at heq
      exact ht id r (heq ▸ he)

/-- Helper: the correlation invariant holds along every interleaving of
register / deregister / complete steps. -/
theorem runDispatch_inv (ops : List DispatchOp) (t : DispatchTable)
    (ht : DispatchInv t) : DispatchInv (runDispatch ops t) := by
  induction ops generalizing t with
  | nil => exact ht
  | cons op ops ih => exact ih _ (dispatchInv_step t op ht)

/-- C1: for every interleaving of concurrently issued commands (register,
timeout-deregister, and Reader-Task complete steps on the shared Dispatch
Table), a caller's slot only ever resolves with the Response whose
`request_id` equals the request id that caller sent — never with another
caller's Response. -/
theorem send_command_request_id_matches (ops : List DispatchOp) (id : Nat)
    (r : Response)
    (h : (id, some r) ∈ (runDispatch ops DispatchTable.empty).slots) :
    r.request_id = id := by
  refine runDispatch_inv ops DispatchTable.empty ?_ id r h
  intro id r hmem
  simp [DispatchTable.empty] at hmem

/-- Witness for C1: two concurrent commands (ids 7 and 9); the Response with
request id 9 resolves the slot registered for 9. -/
theorem send_command_request_id_matches_witness :
    ((9, some (⟨9, 5⟩ : Response)) ∈
      (runDispatch
        [DispatchOp.register 7, DispatchOp.register 9,
         DispatchOp.complete ⟨9, 5⟩] DispatchTable.empty).slots) ∧
    (⟨9, 5⟩ : Response).request_id = 9 :=
  ⟨by decide,
   send_command_request_id_matches
     [DispatchOp.register 7, DispatchOp.register 9, DispatchOp.complete ⟨9, 5⟩]
     9 ⟨9, 5⟩ (by decide)⟩

/-- Helper: the `closed` connection state is absorbing for every facade
operation. -/
theorem runOps_closed (ops : List FacadeOp) (m : MpvIpc)
    (hm : m.conn = ConnState.closed) :
    (m.runOps ops).conn = ConnState.closed := by
  induction ops generalizing m with
  | nil => exact hm
  | cons op ops ih =>
    apply ih
    cases op <;>
      simp [MpvIpc.step, MpvIpc.quit, MpvIpc.send_command, hm]

/-- C2: after `quit()` returns on an IPC handle, `running()` is false and
remains false after every further sequence of calls on that handle, and no
subsequent `send_command` succeeds — each returns `Disconnected`. -/
theorem quit_is_terminal (m : MpvIpc) (ops : List FacadeOp) (cmd : Nat) :
    (m.quit.runOps ops).running = false ∧
    ((m.quit.runOps ops).send_command cmd).1 =
      Except.error IpcError.disconnected := by
  have h := runOps_closed ops m.quit rfl
  constructor
  · simp [MpvIpc.running, h]
  · simp [MpvIpc.send_command, h]

/-- C3: on every exit path of the player session in `YoutubeRs::player` —
normal quit (the `running()` probe turning false or the `q` key), or an
early abort of the caller's control flow by a panic inside the loop body —
the spawned player process and its IPC endpoint resource are released before
control leaves the function. -/
theorem player_releases_resources (e : PlayerExit) :
    (playerExitResources e).processAlive = false ∧
    (playerExitResources e).endpointOpen = false := by
  cases e <;> exact ⟨rfl, rfl⟩

/-- C4: a property observer created by `observe_prop` with a caller-supplied
default — such as the `"volume"` observer of src/app.rs line 562 with
default `1.0` — yields that default from `current()` and reports
`has_changed() = false` while no Event has arrived; once an Event arrives,
`has_changed()` becomes true. -/
theorem observe_prop_default_before_event (α : Type) (name : String)
    (dflt v : α) :
    (observe_prop α name dflt).current = dflt ∧
    (observe_prop α name dflt).has_changed = false ∧
    (observe_prop ℚ "volume" 1).current = 1 ∧
    (observe_prop ℚ "volume" 1).has_changed = false ∧
    ((observe_prop α name dflt).applyEvent v).has_changed = true :=
  ⟨rfl, rfl, rfl, rfl, rfl⟩

/-- Witness for C10 on a track without a duration and a video with one. -/
theorem get_duration_total_witness :
    ((YoutubeResponse.track ⟨"id", "nm", none⟩).durationField = none ∧
      (YoutubeResponse.track ⟨"id", "nm", none⟩).get_duration = 0 ∧
      renderYtPlayerGaugeDen (YoutubeResponse.track ⟨"id", "nm", none⟩) = 0) ∧
    ((YoutubeResponse.video ⟨"i", "n", some 212⟩).durationField = some 212 ∧
      (YoutubeResponse.video ⟨"i", "n", some 212⟩).get_duration = 212) :=
  ⟨⟨rfl, (get_duration_total (YoutubeResponse.track ⟨"id", "nm", none⟩)).2 rfl⟩,
   ⟨rfl, (get_duration_total (YoutubeResponse.video ⟨"i", "n", some 212⟩)).1 212 rfl⟩⟩

end Ytrs
